import Mathlib

/-!
Verification of the `CopilotCommand` format adapter from `rulesync`
(`src/commands/copilot-command.ts`).

The adapter converts GitHub-Copilot prompt files (markdown with a
frontmatter block) to and from the canonical "rulesync command" form.
JavaScript runtime objects are embedded as association lists of fields so
that the presence of a key with value `undefined` is distinguished from the
absence of the key, exactly as at the JS runtime.  Fallible operations
(the constructor with its validation, conversions that perform property
access on possibly-null values) return `Except String`, where `.error`
models a thrown `Error` carrying its message.
-/

set_option autoImplicit false

/-- Runtime value of the JavaScript embedding: strings, numbers (only
integers occur in this program), booleans, `null`, `undefined`, objects as
ordered field lists, and arrays. -/
inductive Value where
  | str (s : String)
  | intv (n : Int)
  | boolv (b : Bool)
  | null
  | undefined
  | obj (fields : List (String × Value))
  | arr (elems : List Value)

/-- First binding of a key in an object's field list (JS objects cannot
hold duplicate keys, so the first binding is the binding). -/
def lookupField : List (String × Value) → String → Option Value
  | [], _ => none
  | (k, v) :: rest, key => if k = key then some v else lookupField rest key

/-- Property read `o.k` on a value already known not to be null/undefined:
a missing key, or a primitive receiver, yields `undefined`. -/
def Value.getField : Value → String → Value
  | .obj fs, k => (lookupField fs k).getD .undefined
  | _, _ => .undefined

/-- Whether an object value carries the key at all (`"k" in o`). -/
def Value.hasKey : Value → String → Bool
  | .obj fs, k => (lookupField fs k).isSome
  | _, _ => false

/-- JavaScript truthiness. -/
def jsTruthy : Value → Bool
  | .str s => !(s = "")
  | .intv n => !(n = 0)
  | .boolv b => b
  | .null => false
  | .undefined => false
  | .obj _ => true
  | .arr _ => true

/-- Property read `o.k` with the JS exception behaviour: reading a property
of `null` or `undefined` throws a `TypeError`, modelled as `none`. -/
def Value.memberAccess : Value → String → Option Value
  | .null, _ => none
  | .undefined, _ => none
  | v, k => some (v.getField k)

/-- Optional chaining `o?.k`: `undefined` when the receiver is null or
undefined, otherwise an ordinary property read. -/
def Value.optChain : Value → String → Value
  | .null, _ => .undefined
  | .undefined, _ => .undefined
  | v, k => v.getField k

/-- Model of `node:path` `join` for the two-segment uses in this adapter. -/
def joinPath (a b : String) : String := a ++ "/" ++ b

/-- Model of `node:path` `basename`: the last `/`-separated component. -/
def basename (p : String) : String := (p.splitOn "/").getLastD p

/-- Embedding of `s.replace(/suffix$/, repl)` for a literal pattern
anchored at the end of the string: if `s` ends with `suffix`, that final
occurrence is replaced by `repl`; otherwise `s` is returned unchanged. -/
def replaceEndAnchored (suffix repl s : String) : String :=
  if suffix.data.isSuffixOf s.data then
    String.mk (s.data.take (s.data.length - suffix.data.length) ++ repl.data)
  else s

/-- The filename rewrite of `toRulesyncCommand` (line 78):
`originalFilePath.replace(/\.prompt\.md$/, ".md")`. -/
def stripPromptMd (s : String) : String := replaceEndAnchored ".prompt.md" ".md" s

/-- The filename rewrite of `fromRulesyncCommand` (line 127):
`originalFilePath.replace(/\.md$/, ".prompt.md")`. -/
def toPromptMd (s : String) : String := replaceEndAnchored ".md" ".prompt.md" s

/-- Rendering of a value into frontmatter text.  Modelled from the spec:
the serializer `stringifyFrontmatter` lives in `src/utils/frontmatter.ts`,
which is not among the sources; the spec only requires `serialize(body,
metadata) -> rawText` to be a deterministic function that round-trips with
`parse`, so any injective rendering is a faithful model. -/
def renderValue : Value → String
  | .str s => "\x22" ++ s ++ "\x22"
  | .intv n => toString n
  | .boolv b => toString b
  | .null => "null"
  | .undefined => "undefined"
  | .obj [] => "obj()"
  | .obj ((k, v) :: rest) =>
      "field(" ++ k ++ ", " ++ renderValue v ++ ") " ++ renderValue (.obj rest)
  | .arr [] => "arr()"
  | .arr (v :: rest) => "elem(" ++ renderValue v ++ ") " ++ renderValue (.arr rest)

/-- Frontmatter serialization.  Modelled from the spec: `stringifyFrontmatter`
(`src/utils/frontmatter.ts`) is an external collaborator; the spec's contract
is a deterministic `serialize(body, metadata) -> rawText`. -/
def stringifyFrontmatter (body : String) (frontmatter : Value) : String :=
  "---\n" ++ renderValue frontmatter ++ "\n---\n\n" ++ body

/-- Embedding of `CopilotCommandFrontmatterSchema.safeParse` (zod object of
`mode: z.literal("agent")`, `description: z.string()`,
`model: z.optional(z.string())`).  A zod object accepts only a plain object,
requires `mode` to be exactly the string `"agent"` and `description` to be a
string, accepts `model` absent, `undefined`, or a string, and its parsed
`data` keeps only the schema's keys (unknown keys are stripped). -/
def copilotSafeParse : Value → Except String Value
  | .obj fs =>
    match lookupField fs "mode" with
    | some (.str m) =>
      if m = "agent" then
        match lookupField fs "description" with
        | some (.str d) =>
          match lookupField fs "model" with
          | none => .ok (.obj [("mode", .str "agent"), ("description", .str d)])
          | some .undefined =>
              .ok (.obj [("mode", .str "agent"), ("description", .str d), ("model", .undefined)])
          | some (.str mo) =>
              .ok (.obj [("mode", .str "agent"), ("description", .str d), ("model", .str mo)])
          | some _ => .error "invalid type at model: expected string"
        | _ => .error "invalid type at description: expected string"
      else .error "invalid literal at mode: expected agent"
    | _ => .error "invalid literal at mode: expected agent"
  | _ => .error "invalid type: expected object"

/-- Whether an Except result is a success. -/
def exceptIsOk {ε α : Type} : Except ε α → Bool
  | .ok _ => true
  | .error _ => false

/-- Whether a value satisfies `CopilotCommandFrontmatterSchema`. -/
def copilotSchemaOk (v : Value) : Bool := exceptIsOk (copilotSafeParse v)

/-- The `ValidationResult` type from `src/types/ai-file.ts`:
`\x7bsuccess: true, error: null\x7d | \x7bsuccess: false, error: Error\x7d`,
with the `Error` embedded as its message. -/
structure ValidationResult where
  success : Bool
  error : Option String

/-- State of a constructed `CopilotCommand`: the fields stored by the
constructor and those inherited from `AiFile` that the adapter reads. -/
structure CopilotCommand where
  baseDir : String
  relativeDirPath : String
  relativeFilePath : String
  fileContent : String
  frontmatter : Value
  body : String

/-- State of a `RulesyncCommand`.  Modelled from the spec:
`src/commands/rulesync-command.ts` is not among the sources; the spec
describes the canonical command as frontmatter (targets, description,
optional nested per-tool block), a body, and path information.  Its
constructor's own schema validation is not part of the sources and is not
modelled (record creation is taken to succeed). -/
structure RulesyncCommand where
  baseDir : String
  relativeDirPath : String
  relativeFilePath : String
  fileContent : String
  frontmatter : Value
  body : String

/-- The value of `CopilotCommand.getSettablePaths().relativeDirPath`:
`join(".github", "prompts")`. -/
def copilotSettableDirPath : String := joinPath ".github" "prompts"

/-- Directory of canonical rulesync commands.  Modelled from the spec:
`RulesyncCommand.getSettablePaths()` is not among the sources; the spec
fixes a per-tool subdirectory, and the canonical one appears in the test
data as `.rulesync/commands`. -/
def rulesyncCommandsDirPath : String := ".rulesync/commands"

/-- Embedding of the `CopilotCommand` constructor (lines 32-49): when the
`validate` flag is set, `safeParse` the frontmatter and throw a descriptive
error naming `join(relativeDirPath, relativeFilePath)` on failure; then
store the (original, unstripped) frontmatter, the body, and the serialized
file content. -/
def CopilotCommand.construct (baseDir relativeDirPath relativeFilePath : String)
    (frontmatter : Value) (body : String) (validate : Bool) :
    Except String CopilotCommand :=
  if validate then
    match copilotSafeParse frontmatter with
    | .error e =>
        .error ("Invalid frontmatter in " ++ joinPath relativeDirPath relativeFilePath
          ++ ": " ++ e)
    | .ok _ =>
        .ok { baseDir := baseDir, relativeDirPath := relativeDirPath,
              relativeFilePath := relativeFilePath,
              fileContent := stringifyFrontmatter body frontmatter,
              frontmatter := frontmatter, body := body }
  else
    .ok { baseDir := baseDir, relativeDirPath := relativeDirPath,
          relativeFilePath := relativeFilePath,
          fileContent := stringifyFrontmatter body frontmatter,
          frontmatter := frontmatter, body := body }

/-- The `rulesyncFrontmatter` object literal of `toRulesyncCommand` (lines
66-74): `targets: ["*"]`, the description, and — spread in only when the
model is truthy — a nested `copilot` block holding the model. -/
def rulesyncFrontmatterOf (desc model : Value) : Value :=
  .obj ([("targets", .arr [.str "*"]), ("description", desc)]
    ++ (if jsTruthy model then [("copilot", .obj [("model", model)])] else []))

/-- Embedding of `CopilotCommand.prototype.toRulesyncCommand` (lines 65-89):
builds canonical frontmatter with `targets: ["*"]`, the description copied
from the stored frontmatter, and a nested `copilot: \x7bmodel\x7d` block
spread in only when `this.frontmatter.model` is truthy; strips the
`.prompt.md` suffix from the filename; keeps the body and file content.
Property reads on a null/undefined stored frontmatter throw (`.error`). -/
def CopilotCommand.toRulesyncCommand (c : CopilotCommand) :
    Except String RulesyncCommand :=
  match c.frontmatter.memberAccess "description", c.frontmatter.memberAccess "model" with
  | some desc, some model =>
      .ok { baseDir := ".",
            relativeDirPath := rulesyncCommandsDirPath,
            relativeFilePath := stripPromptMd c.relativeFilePath,
            fileContent := c.fileContent,
            frontmatter := rulesyncFrontmatterOf desc model,
            body := c.body }
  | _, _ => .error "TypeError: cannot read properties of null or undefined"

/-- Embedding of `CopilotCommand.prototype.validate` (lines 91-107): a falsy
stored frontmatter short-circuits to success; otherwise `safeParse` decides
the result, and a failure carries an error naming
`join(relativeDirPath, relativeFilePath)`. -/
def CopilotCommand.validateResult (c : CopilotCommand) : ValidationResult :=
  if !(jsTruthy c.frontmatter) then
    { success := true, error := none }
  else
    match copilotSafeParse c.frontmatter with
    | .ok _ => { success := true, error := none }
    | .error e =>
        { success := false,
          error := some ("Invalid frontmatter in "
            ++ joinPath c.relativeDirPath c.relativeFilePath ++ ": " ++ e) }

/-- The `copilotFrontmatter` object literal of `fromRulesyncCommand` (lines
117-121): `mode: "agent"`, the canonical description, and a `model` key that
is always written (its value is `rulesyncFrontmatter.copilot?.model`, which
is `undefined` when the nested block or its model is missing). -/
def copilotFrontmatterOf (desc model : Value) : Value :=
  .obj [("mode", .str "agent"), ("description", desc), ("model", model)]

/-- Embedding of `CopilotCommand.fromRulesyncCommand` (lines 109-137): the
copilot frontmatter is built as the object literal
`\x7bmode: "agent", description: rfm.description, model: rfm.copilot?.model\x7d`
(note: the `model` key is always written, possibly with value `undefined`),
the filename `.md` suffix becomes `.prompt.md`, and the constructor is
invoked with the caller's `validate` flag.  Property reads on a
null/undefined canonical frontmatter throw (`.error`). -/
def CopilotCommand.fromRulesyncCommand (baseDir : String)
    (rulesyncCommand : RulesyncCommand) (validate : Bool) :
    Except String CopilotCommand :=
  let rfm := rulesyncCommand.frontmatter
  match rfm.memberAccess "description", rfm.memberAccess "copilot" with
  | some desc, some copilotBlock =>
      let copilotFrontmatter : Value :=
        copilotFrontmatterOf desc (copilotBlock.optChain "model")
      CopilotCommand.construct baseDir copilotSettableDirPath
        (toPromptMd rulesyncCommand.relativeFilePath) copilotFrontmatter
        rulesyncCommand.body validate
  | _, _ => .error "TypeError: cannot read properties of null or undefined"

/-- Embedding of `CopilotCommand.fromFile` (lines 139-163).  The external
collaborators `readFileContent` and `parseFrontmatter` are passed as
function arguments (their contracts, per the spec: read may fail; parse
yields an untyped metadata mapping and a body or fails when no frontmatter
block exists).  The parsed frontmatter is `safeParse`d and an invalid one
throws regardless of the `validate` flag; on success the constructor
receives the stripped `result.data`, the basename of the relative path, and
the trimmed body. -/
def CopilotCommand.fromFile (readFileContent : String → Except String String)
    (parseFrontmatter : String → Except String (Value × String))
    (baseDir relativeFilePath : String) (validate : Bool) :
    Except String CopilotCommand :=
  match readFileContent
      (joinPath baseDir (joinPath copilotSettableDirPath relativeFilePath)) with
  | .error e => .error e
  | .ok fileContent =>
    match parseFrontmatter fileContent with
    | .error e => .error e
    | .ok (frontmatter, content) =>
      match copilotSafeParse frontmatter with
      | .error e => .error ("Invalid frontmatter in "
          ++ joinPath baseDir (joinPath copilotSettableDirPath relativeFilePath)
          ++ ": " ++ e)
      | .ok data =>
          CopilotCommand.construct baseDir copilotSettableDirPath
            (basename relativeFilePath) data content.trim validate

/-- Whether a list of values contains a given string value. -/
def containsStr (ts : List Value) (s : String) : Bool :=
  ts.any fun t => match t with | .str u => u = s | _ => false

/-- Modelled from the spec: `isTargetedByRulesyncCommandDefault` lives in
`src/commands/tool-command.ts`, which is not among the sources.  The spec:
"returns true if the canonical document's `targets` field is absent,
contains a wildcard marker, or explicitly lists this tool's identifier;
false otherwise". -/
def isTargetedByRulesyncCommandDefault (rulesyncCommand : RulesyncCommand)
    (toolTarget : String) : Bool :=
  match rulesyncCommand.frontmatter.getField "targets" with
  | .undefined => true
  | .arr ts => containsStr ts "*" || containsStr ts toolTarget
  | _ => false

/-- Embedding of `CopilotCommand.isTargetedByRulesyncCommand` (lines
165-170): delegates to the default with `toolTarget: "copilot"`. -/
def CopilotCommand.isTargetedByRulesyncCommand
    (rulesyncCommand : RulesyncCommand) : Bool :=
  isTargetedByRulesyncCommandDefault rulesyncCommand "copilot"

/-- A valid copilot frontmatter as quantified over in the spec: mode
`"agent"`, a string description, and an optional string model whose key is
present exactly when the option is `some`. -/
def copilotFM (d : String) (m : Option String) : Value :=
  .obj ([("mode", .str "agent"), ("description", .str d)]
    ++ (match m with | some s => [("model", .str s)] | none => []))

/-- Normalization the conversion pair applies to the optional model field:
a nonempty string survives; an absent or empty model comes back as a
`model` key holding `undefined`. -/
def modelNorm (m : Option String) : Value :=
  match m with
  | some s => if s = "" then .undefined else .str s
  | none => .undefined

/-- The conversion round trip of the spec's property: construct a
`CopilotCommand` from a valid frontmatter and body (validating), convert it
to a `RulesyncCommand`, and convert that back. -/
def copilotRoundtrip (d : String) (m : Option String) (b rf : String) :
    Except String CopilotCommand :=
  (CopilotCommand.construct "." copilotSettableDirPath rf (copilotFM d m) b true).bind
    fun c => c.toRulesyncCommand.bind
      fun r => CopilotCommand.fromRulesyncCommand "." r true

/-- A canonical command whose frontmatter has no nested `copilot` block. -/
def rcNoModelCex : RulesyncCommand :=
  { baseDir := ".", relativeDirPath := rulesyncCommandsDirPath,
    relativeFilePath := "test.md", fileContent := "",
    frontmatter := .obj [("targets", .arr [.str "copilot"]),
                         ("description", .str "Test")],
    body := "Body" }

/-- A canonical command whose frontmatter has a nested `copilot` block
holding a model. -/
def rcModelW : RulesyncCommand :=
  { baseDir := ".", relativeDirPath := rulesyncCommandsDirPath,
    relativeFilePath := "model-command.md", fileContent := "",
    frontmatter := .obj [("targets", .arr [.str "copilot"]),
                         ("description", .str "Command with model"),
                         ("copilot", .obj [("model", .str "claude-haiku-4.5")])],
    body := "Model test content" }

/-- The copilot command produced by converting `rcModelW`. -/
def cmdModelW : CopilotCommand :=
  match CopilotCommand.fromRulesyncCommand "." rcModelW true with
  | .ok c => c
  | .error _ => { baseDir := "", relativeDirPath := "", relativeFilePath := "",
                  fileContent := "", frontmatter := .null, body := "" }

/-- A copilot command with a model, built directly with valid frontmatter. -/
def cModelW : CopilotCommand :=
  { baseDir := ".", relativeDirPath := copilotSettableDirPath,
    relativeFilePath := "model-test.prompt.md", fileContent := "",
    frontmatter := copilotFM "Test with model" (some "claude-haiku-4.5"),
    body := "Test body" }

/-- The canonical command produced by converting `cModelW`. -/
def rModelW : RulesyncCommand :=
  match cModelW.toRulesyncCommand with
  | .ok r => r
  | .error _ => { baseDir := "", relativeDirPath := "", relativeFilePath := "",
                  fileContent := "", frontmatter := .null, body := "" }

/-- A canonical command whose frontmatter has no `targets` key at all. -/
def rcNoTargetsW : RulesyncCommand :=
  { baseDir := ".", relativeDirPath := rulesyncCommandsDirPath,
    relativeFilePath := "test.md", fileContent := "",
    frontmatter := .obj [("description", .str "Test")],
    body := "Body" }

theorem replaceEndAnchored_append (suffix repl p : String) :
    replaceEndAnchored suffix repl (p ++ suffix) = p ++ repl := by
  have hdata : (p ++ suffix).data = p.data ++ suffix.data := rfl
  have hsuf : suffix.data.isSuffixOf (p ++ suffix).data := by
    rw [hdata, List.isSuffixOf_iff_suffix]
    exact List.suffix_append _ _
  unfold replaceEndAnchored
  rw [if_pos hsuf, hdata]
  have hlen : (p.data ++ suffix.data).length - suffix.data.length = p.data.length := by
    simp
  rw [hlen, List.take_left]
  rfl

theorem replaceEndAnchored_of_not_suffix (suffix repl s : String)
    (h : ¬ suffix.data.isSuffixOf s.data) :
    replaceEndAnchored suffix repl s = s := by
  unfold replaceEndAnchored
  rw [if_neg h]

theorem construct_ok_state (bd rd rf : String) (fm : Value) (b : String) (v : Bool)
    (cmd : CopilotCommand)
    (h : CopilotCommand.construct bd rd rf fm b v = Except.ok cmd) :
    cmd = ⟨bd, rd, rf, stringifyFrontmatter b fm, fm, b⟩ := by
  unfold CopilotCommand.construct at h
  cases v with
  | false => simp at h; exact h.symm
  | true =>
    simp at h
    cases hp : copilotSafeParse fm with
    | error e => rw [hp] at h; exact absurd h (by simp)
    | ok data => rw [hp] at h; simp at h; exact h.symm

theorem construct_error_of_invalid (bd rd rf : String) (fm : Value) (b : String)
    (h : copilotSchemaOk fm = false) :
    ∃ e, CopilotCommand.construct bd rd rf fm b true
      = Except.error ("Invalid frontmatter in " ++ joinPath rd rf ++ ": " ++ e) := by
  unfold CopilotCommand.construct
  cases hp : copilotSafeParse fm with
  | error e => exact ⟨e, by simp⟩
  | ok data =>
    exfalso
    rw [copilotSchemaOk, hp] at h
    exact absurd h (by simp [exceptIsOk])

theorem toRulesyncCommand_ok_shape (c : CopilotCommand) (r : RulesyncCommand)
    (h : c.toRulesyncCommand = Except.ok r) :
    r = ⟨".", rulesyncCommandsDirPath, stripPromptMd c.relativeFilePath, c.fileContent,
         rulesyncFrontmatterOf (c.frontmatter.getField "description")
           (c.frontmatter.getField "model"),
         c.body⟩ := by
  unfold CopilotCommand.toRulesyncCommand at h
  cases hfm : c.frontmatter <;> rw [hfm] at h <;>
    simp [Value.memberAccess] at h <;> exact h.symm

theorem fromRulesyncCommand_ok_shape (bd : String) (rc : RulesyncCommand) (v : Bool)
    (cmd : CopilotCommand)
    (h : CopilotCommand.fromRulesyncCommand bd rc v = Except.ok cmd) :
    cmd = ⟨bd, copilotSettableDirPath, toPromptMd rc.relativeFilePath,
           stringifyFrontmatter rc.body
             (copilotFrontmatterOf (rc.frontmatter.getField "description")
               ((rc.frontmatter.getField "copilot").optChain "model")),
           copilotFrontmatterOf (rc.frontmatter.getField "description")
             ((rc.frontmatter.getField "copilot").optChain "model"),
           rc.body⟩ := by
  unfold CopilotCommand.fromRulesyncCommand at h
  cases hfm : rc.frontmatter <;> rw [hfm] at h <;>
    simp only [Value.memberAccess] at h <;>
    first
      | exact absurd h (by simp)
      | exact construct_ok_state _ _ _ _ _ _ _ h

theorem getField_eq_undef_of_not_hasKey (v : Value) (k : String)
    (h : v.hasKey k = false) : v.getField k = Value.undefined := by
  cases v <;> simp [Value.getField]
  case obj fs =>
    simp only [Value.hasKey] at h
    cases hl : lookupField fs k with
    | none => simp
    | some w => rw [hl] at h; simp at h

theorem rulesyncFM_getField_targets (desc model : Value) :
    (rulesyncFrontmatterOf desc model).getField "targets" = Value.arr [Value.str "*"] := by
  unfold rulesyncFrontmatterOf
  cases htm : jsTruthy model <;> rfl

theorem rulesyncFM_getField_description (desc model : Value) :
    (rulesyncFrontmatterOf desc model).getField "description" = desc := by
  unfold rulesyncFrontmatterOf
  cases htm : jsTruthy model <;> rfl

theorem rulesyncFM_hasKey_copilot (desc model : Value) :
    (rulesyncFrontmatterOf desc model).hasKey "copilot" = jsTruthy model := by
  unfold rulesyncFrontmatterOf
  cases htm : jsTruthy model <;> rfl

theorem rulesyncFM_getField_copilot (desc model : Value) (h : jsTruthy model = true) :
    (rulesyncFrontmatterOf desc model).getField "copilot"
      = Value.obj [("model", model)] := by
  unfold rulesyncFrontmatterOf
  rw [h]
  rfl

theorem copilotFM_of_getField_mode (desc model : Value) :
    (copilotFrontmatterOf desc model).getField "mode" = Value.str "agent" := rfl

theorem copilotFM_of_getField_description (desc model : Value) :
    (copilotFrontmatterOf desc model).getField "description" = desc := rfl

theorem copilotFM_of_getField_model (desc model : Value) :
    (copilotFrontmatterOf desc model).getField "model" = model := rfl

theorem copilotFM_of_hasKey_model (desc model : Value) :
    (copilotFrontmatterOf desc model).hasKey "model" = true := rfl

/-- C2: whenever `toRulesyncCommand` produces a canonical command, its
frontmatter has `targets` equal to `["*"]`, the description copied verbatim
from the stored copilot frontmatter, and a nested `copilot` block holding
the model value whenever the block is present; when the stored frontmatter
has no `model` key at all, the result has no `copilot` key at all; and the
body is unchanged. -/
theorem C2_toRulesyncCommand_shape (c : CopilotCommand) (r : RulesyncCommand)
    (h : c.toRulesyncCommand = Except.ok r) :
    r.frontmatter.getField "targets" = Value.arr [Value.str "*"]
    ∧ r.frontmatter.getField "description" = c.frontmatter.getField "description"
    ∧ (c.frontmatter.hasKey "model" = false → r.frontmatter.hasKey "copilot" = false)
    ∧ (r.frontmatter.hasKey "copilot" = true →
        r.frontmatter.getField "copilot"
          = Value.obj [("model", c.frontmatter.getField "model")])
    ∧ r.body = c.body := by
  have hr := toRulesyncCommand_ok_shape c r h
  subst hr
  refine ⟨rulesyncFM_getField_targets _ _, rulesyncFM_getField_description _ _, ?_, ?_, rfl⟩
  · intro hk
    rw [rulesyncFM_hasKey_copilot, getField_eq_undef_of_not_hasKey _ _ hk]
    rfl
  · intro hk
    rw [rulesyncFM_hasKey_copilot] at hk
    exact rulesyncFM_getField_copilot _ _ hk

/-- C2 witness: the conversion of a concrete command with a model. -/
theorem C2_witness :
    rModelW.frontmatter.getField "targets" = Value.arr [Value.str "*"]
    ∧ rModelW.frontmatter.getField "description"
        = cModelW.frontmatter.getField "description"
    ∧ rModelW.frontmatter.getField "copilot"
        = Value.obj [("model", cModelW.frontmatter.getField "model")]
    ∧ rModelW.body = cModelW.body := by
  have h := C2_toRulesyncCommand_shape cModelW rModelW rfl
  exact ⟨h.1, h.2.1, h.2.2.2.1 rfl, h.2.2.2.2⟩

/-- C3 counterexample: converting a canonical command with no nested
`copilot` block yields a copilot frontmatter that DOES carry a `model` key
(holding `undefined`), contradicting the claim that the model field is
left unset (no model key) in that case. -/
theorem C3_counterexample :
    rcNoModelCex.frontmatter.hasKey "copilot" = false
    ∧ Except.map (fun c => c.frontmatter.hasKey "model")
        (CopilotCommand.fromRulesyncCommand "." rcNoModelCex true)
      = Except.ok true := ⟨rfl, rfl⟩

/-- C3 (amended): whenever `fromRulesyncCommand` produces a command, its
frontmatter has mode `"agent"`, the description copied verbatim, and a
`model` key that is always present, holding `copilot.model` when the
canonical nested block with a model exists and `undefined` otherwise. -/
theorem C3_fromRulesyncCommand_shape (bd : String) (rc : RulesyncCommand)
    (v : Bool) (cmd : CopilotCommand)
    (h : CopilotCommand.fromRulesyncCommand bd rc v = Except.ok cmd) :
    cmd.frontmatter.getField "mode" = Value.str "agent"
    ∧ cmd.frontmatter.getField "description" = rc.frontmatter.getField "description"
    ∧ cmd.frontmatter.hasKey "model" = true
    ∧ cmd.frontmatter.getField "model"
        = (rc.frontmatter.getField "copilot").optChain "model" := by
  have hc := fromRulesyncCommand_ok_shape bd rc v cmd h
  subst hc
  exact ⟨copilotFM_of_getField_mode _ _, copilotFM_of_getField_description _ _,
    copilotFM_of_hasKey_model _ _, copilotFM_of_getField_model _ _⟩

/-- C3 witness: the conversion of a concrete canonical command carrying a
nested `copilot.model`. -/
theorem C3_witness :
    cmdModelW.frontmatter.getField "mode" = Value.str "agent"
    ∧ cmdModelW.frontmatter.getField "description"
        = rcModelW.frontmatter.getField "description"
    ∧ cmdModelW.frontmatter.hasKey "model" = true
    ∧ cmdModelW.frontmatter.getField "model"
        = (rcModelW.frontmatter.getField "copilot").optChain "model" :=
  C3_fromRulesyncCommand_shape "." rcModelW true cmdModelW rfl

/-- C4: constructing with `validate=false` never throws, whatever the shape
of the frontmatter; constructing with `validate=true` succeeds exactly when
the frontmatter satisfies the copilot schema, and on failure the thrown
message names the offending file path `join(relativeDirPath,
relativeFilePath)`. -/
theorem C4_construct_validation (bd rd rf : String) (F : Value) (b : String) :
    exceptIsOk (CopilotCommand.construct bd rd rf F b false) = true
    ∧ exceptIsOk (CopilotCommand.construct bd rd rf F b true) = copilotSchemaOk F
    ∧ (copilotSchemaOk F = false →
        ∃ e, CopilotCommand.construct bd rd rf F b true
          = Except.error ("Invalid frontmatter in " ++ joinPath rd rf ++ ": " ++ e)) := by
  refine ⟨rfl, ?_, construct_error_of_invalid bd rd rf F b⟩
  unfold CopilotCommand.construct copilotSchemaOk
  cases hp : copilotSafeParse F <;> simp [exceptIsOk]

/-- C4 witness: a null frontmatter fails the schema, is rejected with a
path-bearing message when validating, and is accepted when not. -/
theorem C4_witness :
    exceptIsOk (CopilotCommand.construct "." copilotSettableDirPath
      "invalid.prompt.md" Value.null "Body" false) = true
    ∧ exceptIsOk (CopilotCommand.construct "." copilotSettableDirPath
        "invalid.prompt.md" Value.null "Body" true) = copilotSchemaOk Value.null
    ∧ ∃ e, CopilotCommand.construct "." copilotSettableDirPath
        "invalid.prompt.md" Value.null "Body" true
      = Except.error ("Invalid frontmatter in "
          ++ joinPath copilotSettableDirPath "invalid.prompt.md" ++ ": " ++ e) := by
  have h := C4_construct_validation "." copilotSettableDirPath
    "invalid.prompt.md" Value.null "Body"
  exact ⟨h.1, h.2.1, h.2.2 rfl⟩

/-- C5: `isTargetedByRulesyncCommand` holds exactly when the canonical
frontmatter's `targets` field is undefined (absent), or is an array
containing the wildcard `"*"` or the identifier `"copilot"`. -/
theorem C5_isTargetedByRulesyncCommand (rc : RulesyncCommand) :
    CopilotCommand.isTargetedByRulesyncCommand rc = true
      ↔ rc.frontmatter.getField "targets" = Value.undefined
        ∨ ∃ ts, rc.frontmatter.getField "targets" = Value.arr ts
            ∧ (containsStr ts "*" = true ∨ containsStr ts "copilot" = true) := by
  unfold CopilotCommand.isTargetedByRulesyncCommand isTargetedByRulesyncCommandDefault
  cases ht : rc.frontmatter.getField "targets" <;> simp

/-- C5 witness: a canonical command with no `targets` key is targeted. -/
theorem C5_witness : CopilotCommand.isTargetedByRulesyncCommand rcNoTargetsW = true :=
  (C5_isTargetedByRulesyncCommand rcNoTargetsW).mpr (Or.inl rfl)

/-- C6: both filename rewrites replace only a literal suffix anchored at
the end of the filename: any filename `p ++ ".prompt.md"` maps to
`p ++ ".md"` with the prefix `p` (including any earlier occurrence of the
suffix) untouched, a filename not ending in `".prompt.md"` is unchanged,
any filename `p ++ ".md"` maps to `p ++ ".prompt.md"`, and these are
exactly the rewrites `toRulesyncCommand` and `fromRulesyncCommand` apply
to the relative file path. -/
theorem C6_filename_suffix_rewrite (p s : String) :
    stripPromptMd (p ++ ".prompt.md") = p ++ ".md"
    ∧ (".prompt.md".data.isSuffixOf s.data = false → stripPromptMd s = s)
    ∧ toPromptMd (p ++ ".md") = p ++ ".prompt.md"
    ∧ (∀ (c : CopilotCommand) (r : RulesyncCommand),
        c.toRulesyncCommand = Except.ok r →
        r.relativeFilePath = stripPromptMd c.relativeFilePath)
    ∧ (∀ (bd : String) (rc : RulesyncCommand) (v : Bool) (cmd : CopilotCommand),
        CopilotCommand.fromRulesyncCommand bd rc v = Except.ok cmd →
        cmd.relativeFilePath = toPromptMd rc.relativeFilePath) := by
  refine ⟨replaceEndAnchored_append _ _ _, ?_, replaceEndAnchored_append _ _ _, ?_, ?_⟩
  · intro h
    exact replaceEndAnchored_of_not_suffix _ _ _ (by simp [h])
  · intro c r h
    rw [toRulesyncCommand_ok_shape c r h]
  · intro bd rc v cmd h
    rw [fromRulesyncCommand_ok_shape bd rc v cmd h]

/-- C6 witness: a filename containing the suffix earlier keeps that
occurrence, a filename not ending in the suffix is unchanged, and the two
concrete conversions rewrite their paths. -/
theorem C6_witness :
    stripPromptMd ("a.prompt.md" ++ ".prompt.md") = "a.prompt.md" ++ ".md"
    ∧ stripPromptMd "plain.md" = "plain.md"
    ∧ toPromptMd ("a.prompt.md" ++ ".md") = "a.prompt.md" ++ ".prompt.md"
    ∧ rModelW.relativeFilePath = stripPromptMd cModelW.relativeFilePath
    ∧ cmdModelW.relativeFilePath = toPromptMd rcModelW.relativeFilePath := by
  have h := C6_filename_suffix_rewrite "a.prompt.md" "plain.md"
  exact ⟨h.1, h.2.1 (by decide), h.2.2.1,
    h.2.2.2.1 cModelW rModelW rfl, h.2.2.2.2 "." rcModelW true cmdModelW rfl⟩

/-- C7 counterexample: a command stored with a `null` frontmatter (possible
with `validate=false`) does NOT satisfy the schema, yet `validate()`
reports success — contradicting the claim that a failing frontmatter
always yields a failure result. -/
theorem C7_counterexample :
    copilotSchemaOk Value.null = false
    ∧ (CopilotCommand.mk "." copilotSettableDirPath "invalid.prompt.md" ""
        Value.null "Body").validateResult
      = { success := true, error := none } := ⟨rfl, rfl⟩

/-- C7 (amended): `validate()` never throws; when the stored frontmatter is
falsy it returns success without any schema check, and when it is truthy it
returns success exactly when the frontmatter satisfies the schema, a
failure carrying an error message naming the file path. -/
theorem C7_validateResult (c : CopilotCommand) :
    (jsTruthy c.frontmatter = false →
      c.validateResult = { success := true, error := none })
    ∧ (jsTruthy c.frontmatter = true →
        (c.validateResult.success = copilotSchemaOk c.frontmatter
        ∧ (copilotSchemaOk c.frontmatter = false →
            ∃ e, c.validateResult.error
              = some ("Invalid frontmatter in "
                ++ joinPath c.relativeDirPath c.relativeFilePath ++ ": " ++ e)))) := by
  constructor
  · intro h
    unfold CopilotCommand.validateResult
    rw [h]
    rfl
  · intro h
    unfold CopilotCommand.validateResult
    rw [h]
    cases hp : copilotSafeParse c.frontmatter <;>
      simp [copilotSchemaOk, hp, exceptIsOk]

/-- C7 witness: an empty object is truthy and fails the schema, so
`validate()` reports failure with a path-bearing message. -/
theorem C7_witness :
    (CopilotCommand.mk "." copilotSettableDirPath "invalid.prompt.md" ""
      (Value.obj []) "Body").validateResult.success = copilotSchemaOk (Value.obj [])
    ∧ ∃ e, (CopilotCommand.mk "." copilotSettableDirPath "invalid.prompt.md" ""
        (Value.obj []) "Body").validateResult.error
      = some ("Invalid frontmatter in "
          ++ joinPath copilotSettableDirPath "invalid.prompt.md" ++ ": " ++ e) := by
  have h := (C7_validateResult (CopilotCommand.mk "." copilotSettableDirPath
    "invalid.prompt.md" "" (Value.obj []) "Body")).2 rfl
  exact ⟨h.1, h.2 rfl⟩

/-- C8: the presence test for the model in `toRulesyncCommand` is a
truthiness check: a frontmatter whose `model` key holds the empty string
converts to exactly the same canonical command as one with no `model` key,
and the result carries no `copilot` key. -/
theorem C8_empty_model_truthiness (bd rd rf fc b d : String) :
    CopilotCommand.toRulesyncCommand ⟨bd, rd, rf, fc, copilotFM d (some ""), b⟩
      = CopilotCommand.toRulesyncCommand ⟨bd, rd, rf, fc, copilotFM d none, b⟩
    ∧ Except.map (fun r => r.frontmatter.hasKey "copilot")
        (CopilotCommand.toRulesyncCommand ⟨bd, rd, rf, fc, copilotFM d (some ""), b⟩)
      = Except.ok false := ⟨rfl, rfl⟩

/-- C9: a falsy stored frontmatter (only constructible with
`validate=false`) makes `validate()` return success with a null error,
with no schema check at all. -/
theorem C9_falsy_frontmatter_validates (c : CopilotCommand)
    (h : jsTruthy c.frontmatter = false) :
    c.validateResult = { success := true, error := none } := by
  unfold CopilotCommand.validateResult
  rw [h]
  rfl

/-- C9 witness: the null frontmatter is falsy, fails the schema, and still
validates successfully. -/
theorem C9_witness :
    jsTruthy Value.null = false
    ∧ copilotSchemaOk Value.null = false
    ∧ (CopilotCommand.mk "." copilotSettableDirPath "no-frontmatter.prompt.md" ""
        Value.null "Body").validateResult = { success := true, error := none } :=
  ⟨rfl, rfl, C9_falsy_frontmatter_validates _ rfl⟩

/-- C10: `fromFile` checks the parsed frontmatter against the schema before
construction and rejects an invalid one with a path-bearing error for every
value of the `validate` flag: `validate=false` does not skip it. -/
theorem C10_fromFile_validates_unconditionally
    (readFn : String → Except String String)
    (parseFn : String → Except String (Value × String))
    (bd rfp : String) (v : Bool) (txt content : String) (fm : Value)
    (h1 : readFn (joinPath bd (joinPath copilotSettableDirPath rfp)) = Except.ok txt)
    (h2 : parseFn txt = Except.ok (fm, content))
    (h3 : copilotSchemaOk fm = false) :
    ∃ e, CopilotCommand.fromFile readFn parseFn bd rfp v
      = Except.error ("Invalid frontmatter in "
          ++ joinPath bd (joinPath copilotSettableDirPath rfp) ++ ": " ++ e) := by
  unfold CopilotCommand.fromFile
  rw [h1]
  dsimp only
  rw [h2]
  dsimp only
  cases hp : copilotSafeParse fm with
  | error e => exact ⟨e, rfl⟩
  | ok data =>
    exfalso
    rw [copilotSchemaOk, hp] at h3
    exact absurd h3 (by simp [exceptIsOk])

/-- C10 witness: a file whose frontmatter parses to `null` is rejected by
`fromFile` even with `validate=false`. -/
theorem C10_witness :
    ∃ e, CopilotCommand.fromFile (fun _ => Except.ok "raw")
        (fun _ => Except.ok (Value.null, "Body")) "." "invalid.prompt.md" false
      = Except.error ("Invalid frontmatter in "
          ++ joinPath "." (joinPath copilotSettableDirPath "invalid.prompt.md")
          ++ ": " ++ e) :=
  C10_fromFile_validates_unconditionally _ _ "." "invalid.prompt.md" false
    "raw" "Body" Value.null rfl rfl rfl

/-- C1 counterexample: round-tripping the valid frontmatter
`mode: "agent", description: "Test"` (no model key) with body `"Hi"` yields
a frontmatter that carries a `model` key holding `undefined`, so the result
does not equal the input frontmatter exactly. -/
theorem C1_counterexample :
    Except.map CopilotCommand.frontmatter
      (copilotRoundtrip "Test" none "Hi" "test.prompt.md")
      = Except.ok (Value.obj [("mode", Value.str "agent"),
          ("description", Value.str "Test"), ("model", Value.undefined)])
    ∧ Except.map CopilotCommand.frontmatter
        (copilotRoundtrip "Test" none "Hi" "test.prompt.md")
      ≠ Except.ok (copilotFM "Test" none) := by
  refine ⟨rfl, fun hcontra => ?_⟩
  have hb := congrArg (fun e => match e with
    | Except.ok v => Value.hasKey v "model"
    | Except.error _ => false) hcontra
  exact Bool.noConfusion hb

/-- C1 (amended): for every valid copilot frontmatter (string description
`d`, optional model `m`) and body `b`, the round trip construct →
`toRulesyncCommand` → `fromRulesyncCommand` succeeds, preserves the body,
and returns the frontmatter `mode: "agent", description: d` with a `model`
key that is always present, holding `m` when `m` is a nonempty string and
`undefined` otherwise; the frontmatter therefore equals the input exactly
iff the input model is a present, nonempty string. -/
theorem C1_roundtrip (d b rf : String) (m : Option String) :
    Except.map (fun c => (c.frontmatter, c.body)) (copilotRoundtrip d m b rf)
      = Except.ok (copilotFrontmatterOf (Value.str d) (modelNorm m), b) := by
  cases m with
  | none => rfl
  | some s =>
    by_cases hs : s = ""
    · subst hs; rfl
    · simp [copilotRoundtrip, copilotFM, CopilotCommand.construct, copilotSafeParse,
        lookupField, CopilotCommand.toRulesyncCommand, Value.memberAccess,
        Value.getField, jsTruthy, hs, CopilotCommand.fromRulesyncCommand,
        Value.optChain, rulesyncFrontmatterOf, copilotFrontmatterOf, modelNorm,
        Except.bind, Except.map]
